import Mathlib

/-!
Verification of the IT-Operations-Agent repository's control-flow contracts.

The development shallowly embeds the two core engines of the repository:

* the tool-dispatch loop of `src/agents/docker_monitoring_agent.py`
  (`monitor_containers`) and `src/agents/monitoring_agent.py`
  (`ask_monitoring_agent`), with the decision engine (the LLM) treated as an
  opaque function from transcripts to messages, and with the docker-backed
  tool handlers treated as opaque functions that either return a payload or
  raise (modelled as `Except`);

* the incident escalation pipeline of `src/agents/incident_response_agent.py`
  (`restart_container_with_retry`, `check_container_health_status`),
  `src/agents/alert_manager_agent.py` (`send_container_down_alert`) and
  `src/agents/orchestrator.py` (`orchestrate_check_only`,
  `orchestrate_heal_once`), with the docker daemon's state modelled as an
  explicit list of containers and restart behaviour as an oracle giving, for
  each attempt number, either the post-restart status or the exception raised.

Functions keep the source's names.  Besides their source return values, the
loop runners also return instrumentation the claims speak about: the number of
decision-engine invocations, the number of adapter restart calls, and the
number of `send_email_alert` invocations.
-/

namespace ITOps

/-- A structured tool call issued by the decision engine
(`call` dictionaries with keys `name`, `args`, `id` in the Python loops).
The argument payload is opaque to the loop and kept as a single string. -/
structure ToolCall where
  name : String
  args : String
  id : String
deriving DecidableEq, Repr

/-- The outcome of dispatching one tool call: the handler's payload, or the
error dictionary the loop builds (`{"error": ...}`) for an unknown tool or a
handler exception.  Exactly one of the two shapes occurs. -/
inductive ToolOut where
  | payload (v : String)
  | failure (msg : String)
deriving DecidableEq, Repr

/-- One transcript entry of the conversation the loop maintains
(`HumanMessage`, the AI message with its `tool_calls`, `ToolMessage`). -/
inductive Msg where
  | human (content : String)
  | ai (content : String) (tool_calls : List ToolCall)
  | toolMsg (content : ToolOut) (tool_call_id : String)
deriving DecidableEq, Repr

/-- The decision engine's reply: free text plus the (possibly empty) list of
requested tool calls.  `llm.invoke(messages)` in the source. -/
structure AIMsg where
  content : String
  tool_calls : List ToolCall
deriving DecidableEq, Repr

/-- A decision engine: an opaque function from the transcript to a reply,
as in spec section 2 (`decide(transcript)`). -/
def DecisionEngine : Type := List Msg → AIMsg

/-- A tool registry: tool name to handler.  A handler either returns a
payload or raises, which the embedding records as `Except.error`. -/
def ToolRegistry : Type := String → Option (String → Except String String)

/-- Python's `list.insert(i, x)` with a possibly negative index: a negative
index counts from the end and is clamped at 0, a positive one is clamped at
the length.  The loops use `messages.insert(-len(ai.tool_calls), ai)`. -/
def pyInsert {α : Type} (l : List α) (i : Int) (x : α) : List α :=
  let n : Int := l.length
  let idx : Nat := (if i < 0 then max 0 (n + i) else min i n).toNat
  l.take idx ++ x :: l.drop idx

/-- The per-call dispatch block of the loop body
(`docker_monitoring_agent.py` lines 277-283, `monitoring_agent.py` lines
156-162): an unregistered name yields the unknown-tool error dictionary, a
handler exception is caught and yields an error dictionary wrapping the
exception message.  The function is total: no exception escapes it. -/
def dispatch_tool_call (toolMap : ToolRegistry) (call : ToolCall) : ToolOut :=
  match toolMap call.name with
  | none => ToolOut.failure ("Unknown tool: " ++ call.name)
  | some handler =>
      match handler call.args with
      | Except.ok v => ToolOut.payload v
      | Except.error e => ToolOut.failure e

/-- The bounded tool-calling loop shared by `monitor_containers`
(`docker_monitoring_agent.py` lines 264-296) and `ask_monitoring_agent`
(`monitoring_agent.py` lines 143-177), recursing on the remaining iteration
count.  Each iteration invokes the engine once; if no tools are requested the
trimmed text is returned, otherwise every requested call is dispatched in
issue order, its `ToolMessage` appended, and the AI message is inserted at
index `-len(tool_calls)`, i.e. immediately before its own tool results.
After the last iteration one final engine call is made and its trimmed text
returned.  Result: (returned text, final transcript, engine invocations). -/
def toolLoop (decide : DecisionEngine) (toolMap : ToolRegistry) :
    Nat → List Msg → String × List Msg × Nat
  | 0, messages =>
      let final := decide messages
      (final.content.trim, messages, 1)
  | Nat.succ fuel, messages =>
      let ai := decide messages
      if ai.tool_calls.isEmpty then
        (ai.content.trim, messages, 1)
      else
        let toolMsgs := ai.tool_calls.map fun call =>
          Msg.toolMsg (dispatch_tool_call toolMap call) call.id
        let messages2 :=
          pyInsert (messages ++ toolMsgs) (-(ai.tool_calls.length : Int))
            (Msg.ai ai.content ai.tool_calls)
        let r := toolLoop decide toolMap fuel messages2
        (r.1, r.2.1, r.2.2 + 1)

/-- The system prompt of `docker_monitoring_agent.py` (lines 214-236). -/
def SYSTEM_PROMPT : String :=
  "You are a Docker infrastructure monitoring assistant.\n\nYour role:\n- Monitor Docker containers (web servers, databases, caches, applications)\n- Report on container health and status\n- Help diagnose issues by checking logs\n- Identify containers that need attention\n\nCRITICAL RULES:\n- Base all answers ONLY on tool results you receive\n- Do not invent container names, IDs, or logs\n- If a container is down, clearly state this and recommend notifying the incident response team\n- Be concise and actionable\n- When asked about \"all\" containers, use list_all_containers or check_unhealthy_containers\n- You ONLY monitor and report - you do NOT restart containers (that is the incident response agent's job)\n\nAvailable tools:\n- list_all_containers: See all managed containers\n- list_running_containers: See only running containers\n- get_container_status: Get details about a specific container\n- get_container_logs: Read recent logs from a container\n- check_unhealthy_containers: Find all containers that are down or unhealthy\n"

/-- `monitor_containers` (`docker_monitoring_agent.py` lines 243-296): seeds
the transcript with one human message carrying the system prompt and the
question, then runs the bounded tool-calling loop. -/
def monitor_containers (decide : DecisionEngine) (toolMap : ToolRegistry)
    (question : String) (max_iterations : Nat := 3) :
    String × List Msg × Nat :=
  toolLoop decide toolMap max_iterations
    [Msg.human (SYSTEM_PROMPT ++ "\n\nUser question: " ++ question)]

/-- `ask_monitoring_agent` (`monitoring_agent.py` lines 133-177): the same
loop seeded with the bare question, default bound 2. -/
def ask_monitoring_agent (decide : DecisionEngine) (toolMap : ToolRegistry)
    (question : String) (max_tool_calls : Nat := 2) :
    String × List Msg × Nat :=
  toolLoop decide toolMap max_tool_calls [Msg.human question]

/-! ## Health aggregation (`incident_response_agent.check_container_health_status`) -/

/-- A docker container as the adapter reports it: name, status string
("running", "exited", ...), image tags, and labels. -/
structure Container where
  name : String
  status : String
  image_tags : List String
  labels : List (String × String)
deriving DecidableEq, Repr

/-- The per-container info dictionary built by
`check_container_health_status` (lines 123-129). -/
structure ContainerInfo where
  name : String
  status : String
  image : String
  environment : String
  role : String
deriving DecidableEq, Repr

/-- `'environment' in c.labels`: the managed-label filter. -/
def has_environment_label (c : Container) : Bool :=
  (c.labels.lookup "environment").isSome

/-- The info dictionary for one container (lines 123-129 of
`incident_response_agent.py`): first image tag or "unknown", label values
with default "unknown". -/
def container_info (c : Container) : ContainerInfo :=
  { name := c.name
  , status := c.status
  , image := c.image_tags.headD "unknown"
  , environment := (c.labels.lookup "environment").getD "unknown"
  , role := (c.labels.lookup "role").getD "unknown" }

/-- The snapshot dictionary returned by `check_container_health_status`
(lines 136-144). -/
structure HealthSnapshot where
  timestamp : String
  total : Nat
  running : Nat
  stopped : Nat
  running_containers : List ContainerInfo
  stopped_containers : List ContainerInfo
  all_healthy : Bool
deriving DecidableEq, Repr

/-- `check_container_health_status` (`incident_response_agent.py` lines
108-144): list all containers, keep those with the 'environment' label,
partition the per-container info records by `status == "running"`, and build
the snapshot.  The docker state is the explicit `state` argument and the
timestamp an explicit argument, so the function is a pure function of both. -/
def check_container_health_status (state : List Container) (now : String) :
    HealthSnapshot :=
  let containers := state.filter has_environment_label
  let infos := containers.map container_info
  let running := infos.filter fun i => i.status == "running"
  let stopped := infos.filter fun i => !(i.status == "running")
  { timestamp := now
  , total := containers.length
  , running := running.length
  , stopped := stopped.length
  , running_containers := running
  , stopped_containers := stopped
  , all_healthy := stopped.length == 0 }

/-! ## Healing retry (`incident_response_agent.restart_container_with_retry`) -/

/-- Configuration constants of `src/config/config.py` (lines 58-67). -/
def MAX_RESTART_ATTEMPTS : Nat := 3

/-- `CRITICAL_SERVICES` of `src/config/config.py` (line 67). -/
def CRITICAL_SERVICES : List String := ["prod-web-01", "prod-db-01"]

/-- The result dictionary of `restart_container_with_retry`.  Every key the
various return statements may or may not set is an `Option`; a `none` field
models an absent key (read back with `.get(key, default)` by the callers). -/
structure HealResult where
  success : Bool
  container : String
  old_status : Option String := none
  new_status : Option String := none
  error : Option String := none
  attempts : Option Nat := none
  message : Option String := none
deriving DecidableEq, Repr

/-- One restart oracle for a single container: whether `containers.get`
finds it, the status read before the loop, and for each 1-based attempt
number either the status observed after `restart(); reload()` or the
exception both may raise. -/
structure HealOracle where
  found : Bool
  old_status : String
  behavior : Nat → Except String String

/-- The attempt loop of `restart_container_with_retry` (lines 75-105),
recursing over the list of attempt numbers `range(1, max_attempts + 1)`.
On a non-exception round with status "running" it returns the success
dictionary; on a non-exception round with any other status it falls through
to the next attempt; on an exception at `attempt == max_attempts` it returns
the failure dictionary carrying that attempt count; on an earlier exception
it sleeps and retries.  Falling off the loop end returns the bare
"Max attempts reached" dictionary, which carries no `attempts` key and no
`old_status` key.  The second component counts `container.restart` calls. -/
def heal_attempt_loop (container_name old_status : String)
    (behavior : Nat → Except String String) (max_attempts : Nat) :
    List Nat → HealResult × Nat
  | [] =>
      ({ success := false
       , container := container_name
       , error := some "Max attempts reached" }, 0)
  | attempt :: rest =>
      match behavior attempt with
      | Except.ok status =>
          if status == "running" then
            ({ success := true
             , container := container_name
             , old_status := some old_status
             , new_status := some status
             , attempts := some attempt
             , message := some ("Successfully restarted after " ++
                 toString attempt ++ " attempt(s)") }, 1)
          else
            let r := heal_attempt_loop container_name old_status behavior
              max_attempts rest
            (r.1, r.2 + 1)
      | Except.error e =>
          if attempt == max_attempts then
            ({ success := false
             , container := container_name
             , old_status := some old_status
             , error := some e
             , attempts := some attempt
             , message := some ("Failed after " ++ toString attempt ++
                 " attempts") }, 1)
          else
            let r := heal_attempt_loop container_name old_status behavior
              max_attempts rest
            (r.1, r.2 + 1)

/-- `restart_container_with_retry` (`incident_response_agent.py` lines
51-105): a missing container short-circuits with the not-found dictionary
(`attempts = 0`) and no restart call; otherwise the attempt loop runs over
attempts `1..max_attempts`.  The second component counts restart calls. -/
def restart_container_with_retry (oracle : HealOracle)
    (container_name : String) (max_attempts : Nat := MAX_RESTART_ATTEMPTS) :
    HealResult × Nat :=
  if oracle.found then
    heal_attempt_loop container_name oracle.old_status oracle.behavior
      max_attempts (List.range' 1 max_attempts)
  else
    ({ success := false
     , container := container_name
     , error := some "Container not found"
     , attempts := some 0 }, 0)

/-! ## Alerting (`alert_manager_agent.send_container_down_alert`) -/

/-- The `send_email` column of `ALERT_LEVELS` (`config.py` lines 31-52), as
consulted by `ALERT_LEVELS.get(alert_level, {}).get("send_email", True)`:
INFO and SUCCESS are suppressed, WARNING and CRITICAL are sent, and an
unknown level defaults to sending. -/
def ALERT_LEVELS_send_email (alert_level : String) : Bool :=
  if alert_level == "INFO" then false
  else if alert_level == "WARNING" then true
  else if alert_level == "CRITICAL" then true
  else if alert_level == "SUCCESS" then false
  else true

/-- What one `send_container_down_alert` call produced: the final alert
level, subject and body, and how many times `send_email_alert` (the SMTP
notifier) was invoked for it. -/
structure AlertOutcome where
  alert_level : String
  subject : String
  body : String
  email_sends : Nat
deriving DecidableEq, Repr

/-- `send_container_down_alert` (`alert_manager_agent.py` lines 105-173).
`is_critical` is membership in `CRITICAL_SERVICES`; on a successful heal
result the subject/body report the auto-heal and the level is overwritten
with "SUCCESS", otherwise the urgent subject/body are built and the level is
overwritten with "CRITICAL".  `send_email_alert` is invoked exactly when the
`ALERT_LEVELS` policy says to; otherwise the alert is only logged.  `now` is
the `datetime.utcnow()` timestamp string. -/
def send_container_down_alert (container_name : String)
    (auto_heal_result : HealResult) (now : String) : AlertOutcome :=
  let is_critical := CRITICAL_SERVICES.contains container_name
  let result : AlertOutcome :=
    if auto_heal_result.success then
      { alert_level := "SUCCESS"
      , subject := "Container " ++ container_name ++
          " - Auto-Healed Successfully"
      , body := "\nContainer Alert: " ++ container_name ++
          "\n\nStatus: Container was DOWN but has been AUTO-RESTARTED\nSeverity: " ++
          (if is_critical then "CRITICAL" else "WARNING") ++
          "\nAction Taken: Automatic restart\nResult: ✅ SUCCESS\n\nDetails:\n- Old Status: " ++
          (auto_heal_result.old_status.getD "unknown") ++
          "\n- New Status: " ++ (auto_heal_result.new_status.getD "running") ++
          "\n- Restart Attempts: " ++ toString (auto_heal_result.attempts.getD 1) ++
          "\n- Timestamp: " ++ now ++
          " UTC\n\nNo further action required. System is operational.\n"
      , email_sends := 0 }
    else
      { alert_level := "CRITICAL"
      , subject := "URGENT: Container " ++ container_name ++
          " DOWN - Auto-Heal FAILED"
      , body := "\n🚨 CRITICAL INCIDENT 🚨\n\nContainer: " ++ container_name ++
          "\nStatus: DOWN\nSeverity: CRITICAL\n\nAuto-Healing Result: ❌ FAILED\nError: " ++
          (auto_heal_result.error.getD "Unknown error") ++
          "\nAttempts: " ++ toString (auto_heal_result.attempts.getD 0) ++
          "\n\nACTION REQUIRED:\nThis container requires immediate manual intervention.\n\nSuggested Actions:\n1. Check container logs: docker logs " ++
          container_name ++
          "\n2. Inspect container: docker inspect " ++ container_name ++
          "\n3. Check host resources: disk space, memory\n4. Review application logs for errors\n\nTimestamp: " ++
          now ++ " UTC\n"
      , email_sends := 0 }
  if ALERT_LEVELS_send_email result.alert_level then
    { result with email_sends := 1 }
  else
    result

/-! ## Orchestration (`orchestrator.py`) -/

/-- An externally visible action of one orchestration cycle: a restart
invocation on the adapter (`heal_container`), or a produced alert. -/
inductive OrchAction where
  | restart (container : String)
  | alert (a : AlertOutcome)
deriving DecidableEq, Repr

/-- The synthetic heal-result dictionary the check-mode orchestrator passes
to `send_container_down_alert` (`orchestrator.py` lines 121-129). -/
def check_mode_heal_result (status : String) : HealResult :=
  { success := false
  , error := some "Check mode - no healing attempted (awaiting manual intervention)"
  , old_status := some status
  , attempts := some 0
  , container := "" }

/-- `orchestrate_check_only` (`orchestrator.py` lines 33-157): take one
health snapshot; for each stopped container run the (read-only, elided here)
AI diagnosis steps and send the check-mode alert.  No healing call is made.
Returns the snapshot (the function's return value) and the trace of
resource-affecting actions. -/
def orchestrate_check_only (state : List Container) (now : String) :
    HealthSnapshot × List OrchAction :=
  let health := check_container_health_status state now
  (health,
    health.stopped_containers.map fun c =>
      OrchAction.alert
        (send_container_down_alert c.name (check_mode_heal_result c.status) now))

/-- `orchestrate_heal_once` (`orchestrator.py` lines 160-306): take one
health snapshot; for each stopped container run the (read-only, elided)
AI diagnosis, call `heal_container` — i.e. `restart_container_with_retry`
with the default `MAX_RESTART_ATTEMPTS` — then send the alert built from the
heal result.  The restart oracle for each container name models the docker
adapter.  The trace records one `restart` action per restart call made, then
the alert. -/
def orchestrate_heal_once (state : List Container)
    (oracle : String → HealOracle) (now : String) :
    HealthSnapshot × List OrchAction :=
  let health := check_container_health_status state now
  (health,
    (health.stopped_containers.map fun c =>
      let p := restart_container_with_retry (oracle c.name) c.name
      List.replicate p.2 (OrchAction.restart c.name) ++
        [OrchAction.alert (send_container_down_alert c.name p.1 now)]).flatten)

/-! ## The transcript ordering invariant (spec section 3) -/

/-- Well-formed transcripts: a sequence of blocks, where a block is a human
message, or an AI message immediately followed by exactly one tool-result
message per issued tool call, in issue order and carrying the issuing call's
id.  A tool-result message can occur nowhere else, so none precedes its AI
message or follows a later one. -/
inductive WFT (outs : ToolCall → ToolOut) : List Msg → Prop
  | nil : WFT outs []
  | human (s : String) (rest : List Msg) :
      WFT outs rest → WFT outs (Msg.human s :: rest)
  | aiBlock (s : String) (cs : List ToolCall) (rest : List Msg) :
      WFT outs rest →
      WFT outs (Msg.ai s cs ::
        (cs.map fun c => Msg.toolMsg (outs c) c.id) ++ rest)

/-! ## Helper lemmas -/

/-- Inserting at index `-(b.length)` into `a ++ b` (with `b` nonempty) puts
the element right before `b`: the positional-insertion idiom of the loops
restores the AI message in front of its own tool results. -/
theorem pyInsert_append {α : Type} (a b : List α) (x : α) (hb : b ≠ []) :
    pyInsert (a ++ b) (-(b.length : Int)) x = a ++ x :: b := by
  have hb0 : 0 < b.length := List.length_pos.mpr hb
  have h1 : (-(b.length : Int)) < 0 := by omega
  unfold pyInsert
  simp only [List.length_append, if_pos h1]
  have h2 : ((a.length + b.length : Nat) : Int) + -(b.length : Int) =
      (a.length : Int) := by push_cast; omega
  have h3 : max 0 ((a.length : Int)) = (a.length : Int) := by omega
  rw [h2, h3]
  simp only [Int.toNat_natCast]
  rw [List.take_left, List.drop_left]

/-- Well-formed transcripts concatenate. -/
theorem WFT_append {outs : ToolCall → ToolOut} {a b : List Msg}
    (ha : WFT outs a) (hb : WFT outs b) : WFT outs (a ++ b) := by
  induction ha with
  | nil => simpa using hb
  | human s rest _ ih => exact WFT.human s _ ih
  | aiBlock s cs rest _ ih =>
      have h := @WFT.aiBlock outs s cs (rest ++ b) ih
      simpa [List.append_assoc] using h

/-- A list splits into the part satisfying a predicate and the rest. -/
theorem length_filter_partition {α : Type} (l : List α) (p : α → Bool) :
    (l.filter p).length + (l.filter fun a => !(p a)).length = l.length := by
  induction l with
  | nil => rfl
  | cons a t ih =>
      by_cases h : p a <;> simp [List.filter_cons, h] <;> omega

/-- The loop makes at most `fuel + 1` engine calls from any transcript. -/
theorem toolLoop_calls_le (decide : DecisionEngine) (toolMap : ToolRegistry) :
    ∀ (fuel : Nat) (messages : List Msg),
      (toolLoop decide toolMap fuel messages).2.2 ≤ fuel + 1 := by
  intro fuel
  induction fuel with
  | zero => intro messages; simp [toolLoop]
  | succ n ih =>
      intro messages
      simp only [toolLoop]
      by_cases h : (decide messages).tool_calls.isEmpty
      · simp [h]
      · simp only [h, if_neg, Bool.false_eq_true, if_false]
        exact Nat.succ_le_succ (ih _)

/-- Against an engine that always requests tool calls, the loop makes
exactly `fuel + 1` engine calls and returns the trimmed text of the final
call, made on the final transcript. -/
theorem toolLoop_calls_always (decide : DecisionEngine) (toolMap : ToolRegistry)
    (halways : ∀ t, (decide t).tool_calls ≠ []) :
    ∀ (fuel : Nat) (messages : List Msg),
      (toolLoop decide toolMap fuel messages).2.2 = fuel + 1 ∧
      (toolLoop decide toolMap fuel messages).1 =
        (decide (toolLoop decide toolMap fuel messages).2.1).content.trim := by
  intro fuel
  induction fuel with
  | zero => intro messages; exact ⟨rfl, rfl⟩
  | succ n ih =>
      intro messages
      have h : (decide messages).tool_calls.isEmpty = false :=
        List.isEmpty_eq_false.mpr (halways messages)
      simp only [toolLoop, h, Bool.false_eq_true, if_false]
      exact ⟨by rw [(ih _).1], (ih _).2⟩

/-- The loop preserves transcript well-formedness: every dispatched turn is
appended as one block, AI message first, then its tool results in issue
order. -/
theorem toolLoop_wft (decide : DecisionEngine) (toolMap : ToolRegistry) :
    ∀ (fuel : Nat) (messages : List Msg),
      WFT (fun c => dispatch_tool_call toolMap c) messages →
      WFT (fun c => dispatch_tool_call toolMap c)
        (toolLoop decide toolMap fuel messages).2.1 := by
  intro fuel
  induction fuel with
  | zero => intro messages hm; exact hm
  | succ n ih =>
      intro messages hm
      simp only [toolLoop]
      by_cases h : (decide messages).tool_calls.isEmpty
      · simpa [h] using hm
      · simp only [h, Bool.false_eq_true, if_false]
        apply ih
        have hne : (decide messages).tool_calls ≠ [] :=
          fun hnil => by simp [hnil] at h
        have hmapne :
            ((decide messages).tool_calls.map fun call =>
              Msg.toolMsg (dispatch_tool_call toolMap call) call.id) ≠ [] := by
          simpa using hne
        have hlen :
            ((decide messages).tool_calls.map fun call =>
              Msg.toolMsg (dispatch_tool_call toolMap call) call.id).length =
              (decide messages).tool_calls.length := List.length_map _ _
        rw [← hlen, pyInsert_append _ _ _ hmapne]
        apply WFT_append hm
        have hblock := @WFT.aiBlock (fun c => dispatch_tool_call toolMap c)
          (decide messages).content (decide messages).tool_calls [] WFT.nil
        simpa using hblock

/-- The attempt loop makes at most one restart call per listed attempt, and
a failed run either fell off the loop end — error "Max attempts reached",
no `attempts` key — or ended on an exception at the attempt equal to
`max_attempts`, recorded in the result. -/
theorem heal_attempt_loop_spec (container_name old_status : String)
    (behavior : Nat → Except String String) (max_attempts : Nat) :
    ∀ l : List Nat,
      (heal_attempt_loop container_name old_status behavior max_attempts l).2 ≤
        l.length ∧
      ((heal_attempt_loop container_name old_status behavior max_attempts
          l).1.success = false →
        ((heal_attempt_loop container_name old_status behavior max_attempts
            l).1.error = some "Max attempts reached" ∧
         (heal_attempt_loop container_name old_status behavior max_attempts
            l).1.attempts = none) ∨
        (∃ e, max_attempts ∈ l ∧ behavior max_attempts = Except.error e ∧
          (heal_attempt_loop container_name old_status behavior max_attempts
              l).1.error = some e ∧
          (heal_attempt_loop container_name old_status behavior max_attempts
              l).1.attempts = some max_attempts)) := by
  intro l
  induction l with
  | nil => exact ⟨Nat.le_refl 0, fun _ => Or.inl ⟨rfl, rfl⟩⟩
  | cons a rest ih =>
      simp only [heal_attempt_loop]
      cases hb : behavior a with
      | ok status =>
          by_cases hr : status == "running"
          · simp only [hr, if_true]
            exact ⟨by simp, fun hfail => by simp at hfail⟩
          · simp only [hr, Bool.false_eq_true, if_false]
            refine ⟨by simpa using Nat.succ_le_succ ih.1, fun hfail => ?_⟩
            rcases ih.2 hfail with hleft | ⟨e, hmem, hrest⟩
            · exact Or.inl hleft
            · exact Or.inr ⟨e, List.mem_cons_of_mem a hmem, hrest⟩
      | error e =>
          by_cases hm : a == max_attempts
          · simp only [hm, if_true]
            refine ⟨by simp, fun _ => Or.inr ⟨e, ?_, ?_, rfl, ?_⟩⟩
            · exact (beq_iff_eq.mp hm) ▸ List.mem_cons_self a rest
            · rw [← beq_iff_eq.mp hm]; exact hb
            · rw [← beq_iff_eq.mp hm]
          · simp only [hm, Bool.false_eq_true, if_false]
            refine ⟨by simpa using Nat.succ_le_succ ih.1, fun hfail => ?_⟩
            rcases ih.2 hfail with hleft | ⟨e', hmem, hrest⟩
            · exact Or.inl hleft
            · exact Or.inr ⟨e', List.mem_cons_of_mem a hmem, hrest⟩

/-- When the attempt list ends at `max_attempts` and no earlier listed
attempt equals it, a failed run's dictionary is determined by the final
attempt's behavior: an exception there is recorded with
`attempts = max_attempts`, while a restart that completed without exception
there (necessarily not "running", the run having failed) yields the bare
"Max attempts reached" dictionary with no attempt count. -/
theorem heal_attempt_loop_last (container_name old_status : String)
    (behavior : Nat → Except String String) (max_attempts : Nat) :
    ∀ l : List Nat, (∀ a ∈ l, a ≠ max_attempts) →
      (heal_attempt_loop container_name old_status behavior max_attempts
          (l ++ [max_attempts])).1.success = false →
      (∀ e, behavior max_attempts = Except.error e →
        (heal_attempt_loop container_name old_status behavior max_attempts
            (l ++ [max_attempts])).1.error = some e ∧
        (heal_attempt_loop container_name old_status behavior max_attempts
            (l ++ [max_attempts])).1.attempts = some max_attempts) ∧
      (∀ s, behavior max_attempts = Except.ok s →
        (heal_attempt_loop container_name old_status behavior max_attempts
            (l ++ [max_attempts])).1.error = some "Max attempts reached" ∧
        (heal_attempt_loop container_name old_status behavior max_attempts
            (l ++ [max_attempts])).1.attempts = none) := by
  intro l
  induction l with
  | nil =>
      intro _ hfail
      constructor
      · intro e he
        simp only [List.nil_append, heal_attempt_loop, he, beq_self_eq_true,
          if_true]
        exact ⟨trivial, trivial⟩
      · intro s hs
        by_cases hr : s == "running"
        · exfalso
          simp only [List.nil_append, heal_attempt_loop, hs, hr,
            if_true] at hfail
          simp at hfail
        · simp only [List.nil_append, heal_attempt_loop, hs, hr,
            Bool.false_eq_true, if_false]
          exact ⟨trivial, trivial⟩
  | cons a rest ih =>
      intro hl hfail
      have ha : (a == max_attempts) = false := by
        have := hl a (List.mem_cons_self a rest)
        simpa using this
      have hl' : ∀ x ∈ rest, x ≠ max_attempts :=
        fun x hx => hl x (List.mem_cons_of_mem a hx)
      simp only [List.cons_append, heal_attempt_loop] at hfail ⊢
      cases hb : behavior a with
      | ok s =>
          by_cases hr : s == "running"
          · rw [hb] at hfail
            simp only [hr, if_true] at hfail
            simp at hfail
          · rw [hb] at hfail
            simp only [hr, Bool.false_eq_true, if_false] at hfail
            simp only [hb, hr, Bool.false_eq_true, if_false]
            exact ih hl' hfail
      | error e =>
          rw [hb] at hfail
          simp only [ha, Bool.false_eq_true, if_false] at hfail
          simp only [hb, ha, Bool.false_eq_true, if_false]
          exact ih hl' hfail

/-- The final alert level of `send_container_down_alert` depends only on
whether the heal result succeeded: "SUCCESS" on success, "CRITICAL"
otherwise — the initial criticality-based level is overwritten on both
branches. -/
theorem alert_level_of_result (container_name : String) (r : HealResult)
    (now : String) :
    (send_container_down_alert container_name r now).alert_level =
      if r.success then "SUCCESS" else "CRITICAL" := by
  by_cases h : r.success <;>
    simp [send_container_down_alert, ALERT_LEVELS_send_email, h]

/-- On a failed heal result whose error key is set, the alert body embeds
the error text verbatim (after "Error: "). -/
theorem alert_body_contains_error (container_name now err : String)
    (r : HealResult) (hs : r.success = false) (he : r.error = some err) :
    ∃ p q, (send_container_down_alert container_name r now).body =
      p ++ err ++ q := by
  refine ⟨"\n🚨 CRITICAL INCIDENT 🚨\n\nContainer: " ++ container_name ++
    "\nStatus: DOWN\nSeverity: CRITICAL\n\nAuto-Healing Result: ❌ FAILED\nError: ",
    "\nAttempts: " ++ toString (r.attempts.getD 0) ++
    "\n\nACTION REQUIRED:\nThis container requires immediate manual intervention.\n\nSuggested Actions:\n1. Check container logs: docker logs " ++
    container_name ++
    "\n2. Inspect container: docker inspect " ++ container_name ++
    "\n3. Check host resources: disk space, memory\n4. Review application logs for errors\n\nTimestamp: " ++
    now ++ " UTC\n", ?_⟩
  simp only [send_container_down_alert, hs, he, Option.getD_some,
    Bool.false_eq_true, if_false, ALERT_LEVELS_send_email, String.append_assoc]
  rfl

/-! ## Claims -/

/-- C4 counterexample: with a docker adapter whose restart calls complete
without exception but never leave the container running, a 3-attempt run is
exhausted (3 restart calls, `success = False`) yet the reported dictionary
carries no `attempts` key at all — in particular not `attempts = 3` as the
claim states. -/
theorem healing_exhausted_attempts_missing :
    (restart_container_with_retry
      ⟨true, "exited", fun _ => Except.ok "exited"⟩ "prod-cache-01" 3).2 = 3 ∧
    (restart_container_with_retry
      ⟨true, "exited", fun _ => Except.ok "exited"⟩
        "prod-cache-01" 3).1.success = false ∧
    (restart_container_with_retry
      ⟨true, "exited", fun _ => Except.ok "exited"⟩
        "prod-cache-01" 3).1.attempts = none ∧
    ¬ (restart_container_with_retry
      ⟨true, "exited", fun _ => Except.ok "exited"⟩
        "prod-cache-01" 3).1.attempts = some 3 := by
  refine ⟨rfl, rfl, rfl, ?_⟩
  decide

/-- C4 (amended): a single-incident healing run issues at most
`max_attempts` restart calls.  For a found container whose run failed
(`max_attempts ≥ 1`), the reported dictionary is determined by the final
attempt: when that attempt raised an exception the result records the
exception with `attempts = max_attempts`, and when its restart completed
without exception (the container still not "running") the result is the
bare "Max attempts reached" dictionary with no attempt count at all. -/
theorem healing_retry_bound_and_exhausted_report (oracle : HealOracle)
    (container_name : String) (max_attempts : Nat) :
    (restart_container_with_retry oracle container_name max_attempts).2 ≤
      max_attempts ∧
    (oracle.found = true →
      (restart_container_with_retry oracle container_name
          max_attempts).1.success = false →
      1 ≤ max_attempts →
      (∀ e, oracle.behavior max_attempts = Except.error e →
        (restart_container_with_retry oracle container_name
            max_attempts).1.error = some e ∧
        (restart_container_with_retry oracle container_name
            max_attempts).1.attempts = some max_attempts) ∧
      (∀ s, oracle.behavior max_attempts = Except.ok s →
        (restart_container_with_retry oracle container_name
            max_attempts).1.error = some "Max attempts reached" ∧
        (restart_container_with_retry oracle container_name
            max_attempts).1.attempts = none)) := by
  constructor
  · by_cases hf : oracle.found
    · have hspec := heal_attempt_loop_spec container_name oracle.old_status
        oracle.behavior max_attempts (List.range' 1 max_attempts)
      have hlen : (List.range' 1 max_attempts).length = max_attempts := by
        simp
      calc (restart_container_with_retry oracle container_name max_attempts).2
          = (heal_attempt_loop container_name oracle.old_status oracle.behavior
              max_attempts (List.range' 1 max_attempts)).2 := by
            simp [restart_container_with_retry, hf]
        _ ≤ (List.range' 1 max_attempts).length := hspec.1
        _ = max_attempts := hlen
    · have hf' : oracle.found = false := by simpa using hf
      simp [restart_container_with_retry, hf']
  · intro hfound hfail hpos
    have heq : restart_container_with_retry oracle container_name
        max_attempts =
        heal_attempt_loop container_name oracle.old_status oracle.behavior
          max_attempts (List.range' 1 max_attempts) := by
      simp [restart_container_with_retry, hfound]
    have hsplit : List.range' 1 max_attempts =
        List.range' 1 (max_attempts - 1) ++ [max_attempts] := by
      have h2 := @List.range'_concat 1 1 (max_attempts - 1)
      have h3 : max_attempts - 1 + 1 = max_attempts := by omega
      rw [h3] at h2
      rw [h2]
      congr 1
      simp
      omega
    have hne : ∀ a ∈ List.range' 1 (max_attempts - 1), a ≠ max_attempts := by
      intro a ha
      simp [List.mem_range'] at ha
      omega
    rw [heq, hsplit] at hfail ⊢
    exact heal_attempt_loop_last container_name oracle.old_status
      oracle.behavior max_attempts (List.range' 1 (max_attempts - 1)) hne hfail

/-- C4 witness: a container that is found but whose restart raises on every
attempt — the run makes at most 3 restart calls and, the final attempt
having raised, reports that exception with `attempts = 3`. -/
theorem healing_retry_bound_and_exhausted_report_witness :
    (restart_container_with_retry
      ⟨true, "exited", fun _ => Except.error "read timed out"⟩
        "prod-db-01" 3).2 ≤ 3 ∧
    (restart_container_with_retry
      ⟨true, "exited", fun _ => Except.error "read timed out"⟩
        "prod-db-01" 3).1.error = some "read timed out" ∧
    (restart_container_with_retry
      ⟨true, "exited", fun _ => Except.error "read timed out"⟩
        "prod-db-01" 3).1.attempts = some 3 := by
  have h := healing_retry_bound_and_exhausted_report
    ⟨true, "exited", fun _ => Except.error "read timed out"⟩ "prod-db-01" 3
  have h2 := (h.2 rfl rfl (by decide)).1 "read timed out" rfl
  exact ⟨h.1, h2.1, h2.2⟩

/-- A one-container docker state — a stopped managed container whose name
is not in `CRITICAL_SERVICES` — for the C1 counterexample. -/
def c1_state : List Container :=
  [ { name := "analytics-01", status := "exited", image_tags := []
    , labels := [("environment", "prod")] } ]

/-- C1 counterexample: in report-only (check) mode a stopped resource that
is NOT in the configured critical set still gets an alert of severity
CRITICAL, not WARNING — `send_container_down_alert` overwrites the
criticality-based level with "CRITICAL" on every non-success result. -/
theorem check_mode_noncritical_alert_is_critical :
    CRITICAL_SERVICES.contains "analytics-01" = false ∧
    (orchestrate_check_only c1_state "t0").2 =
      [OrchAction.alert (send_container_down_alert "analytics-01"
        (check_mode_heal_result "exited") "t0")] ∧
    (send_container_down_alert "analytics-01"
      (check_mode_heal_result "exited") "t0").alert_level = "CRITICAL" ∧
    (send_container_down_alert "analytics-01"
      (check_mode_heal_result "exited") "t0").alert_level ≠ "WARNING" := by
  exact ⟨rfl, rfl, rfl, by decide⟩

/-- C1 (amended): in report-only (check) mode, no restart action occurs,
and every stopped managed resource yields an alert whose severity is
CRITICAL regardless of the configured critical set, whose body references
that no healing was attempted. -/
theorem check_mode_no_restart_and_critical_alerts (state : List Container)
    (now : String) :
    (∀ a ∈ (orchestrate_check_only state now).2,
      ∀ nm, a ≠ OrchAction.restart nm) ∧
    (∀ c ∈ (orchestrate_check_only state now).1.stopped_containers,
      OrchAction.alert (send_container_down_alert c.name
          (check_mode_heal_result c.status) now) ∈
        (orchestrate_check_only state now).2 ∧
      (send_container_down_alert c.name
        (check_mode_heal_result c.status) now).alert_level = "CRITICAL" ∧
      ∃ p q, (send_container_down_alert c.name
        (check_mode_heal_result c.status) now).body =
          p ++ "no healing attempted" ++ q) := by
  constructor
  · intro a ha nm
    simp only [orchestrate_check_only, List.mem_map] at ha
    obtain ⟨c, _, rfl⟩ := ha
    simp
  · intro c hc
    refine ⟨?_, ?_, ?_⟩
    · simp only [orchestrate_check_only] at hc ⊢
      exact List.mem_map.mpr ⟨c, hc, rfl⟩
    · rw [alert_level_of_result]
      rfl
    · obtain ⟨p, q, hpq⟩ := alert_body_contains_error c.name now
        "Check mode - no healing attempted (awaiting manual intervention)"
        (check_mode_heal_result c.status) rfl rfl
      refine ⟨p ++ "Check mode - ",
        " (awaiting manual intervention)" ++ q, ?_⟩
      rw [hpq]
      rw [show ("Check mode - no healing attempted (awaiting manual intervention)" : String) =
        "Check mode - " ++ "no healing attempted" ++
          " (awaiting manual intervention)" from rfl]
      simp only [String.append_assoc]

set_option maxRecDepth 10000 in
/-- C1 witness: on the concrete one-container state, the trace element is
not a restart action and the produced alert has severity CRITICAL. -/
theorem check_mode_no_restart_and_critical_alerts_witness :
    OrchAction.alert (send_container_down_alert "analytics-01"
        (check_mode_heal_result "exited") "t0") ≠
      OrchAction.restart "analytics-01" ∧
    (send_container_down_alert "analytics-01"
      (check_mode_heal_result "exited") "t0").alert_level = "CRITICAL" := by
  have h := check_mode_no_restart_and_critical_alerts c1_state "t0"
  exact ⟨h.1 _ (by decide) "analytics-01",
    (h.2 (container_info ⟨"analytics-01", "exited", [], [("environment", "prod")]⟩)
      (by decide)).2.1⟩

/-- C6: in heal mode, every stopped resource's alert has severity SUCCESS
when the healing succeeded and CRITICAL when it did not (in particular when
retries were exhausted), in either case independently of the configured
critical set — the severity expression does not consult it. -/
theorem heal_mode_alert_severity (state : List Container)
    (oracle : String → HealOracle) (now : String) :
    ∀ c ∈ (orchestrate_heal_once state oracle now).1.stopped_containers,
      OrchAction.alert (send_container_down_alert c.name
          (restart_container_with_retry (oracle c.name) c.name).1 now) ∈
        (orchestrate_heal_once state oracle now).2 ∧
      (send_container_down_alert c.name
          (restart_container_with_retry (oracle c.name) c.name).1
          now).alert_level =
        (if (restart_container_with_retry (oracle c.name) c.name).1.success
         then "SUCCESS" else "CRITICAL") := by
  intro c hc
  constructor
  · simp only [orchestrate_heal_once] at hc ⊢
    refine List.mem_flatten.mpr ⟨_, List.mem_map.mpr ⟨c, hc, rfl⟩, ?_⟩
    simp
  · exact alert_level_of_result c.name _ now

/-- A one-container docker state — a stopped managed container not in the
critical set — for the C6 witness. -/
def c6_state : List Container :=
  [ { name := "analytics-02", status := "exited", image_tags := []
    , labels := [("environment", "prod")] } ]

/-- A restart oracle whose restart raises on every attempt, for the C6
witness (Scenario B shape: retries exhaust). -/
def c6_oracle : String → HealOracle := fun _ =>
  ⟨true, "exited", fun _ => Except.error "no such container"⟩

/-- C6 witness: a non-critical stopped container whose healing exhausts its
retries gets a CRITICAL alert, present in the heal-mode trace. -/
theorem heal_mode_alert_severity_witness :
    OrchAction.alert (send_container_down_alert "analytics-02"
        (restart_container_with_retry (c6_oracle "analytics-02")
          "analytics-02").1 "t0") ∈
      (orchestrate_heal_once c6_state c6_oracle "t0").2 ∧
    (send_container_down_alert "analytics-02"
      (restart_container_with_retry (c6_oracle "analytics-02")
        "analytics-02").1 "t0").alert_level = "CRITICAL" := by
  have h := heal_mode_alert_severity c6_state c6_oracle "t0"
  have h2 := h (container_info ⟨"analytics-02", "exited", [], [("environment", "prod")]⟩)
    (by decide)
  exact ⟨h2.1, h2.2.trans (by decide)⟩

/-- C2: for every decision-engine behavior, `monitor_containers` invokes the
engine at most `max_iterations + 1` times; against an engine that requests
tool calls on every round there are exactly `max_iterations` tool-bearing
rounds followed by exactly one final engine call, whose trimmed text is
returned. -/
theorem tool_dispatch_loop_engine_call_bound (decide : DecisionEngine)
    (toolMap : ToolRegistry) (question : String) (max_iterations : Nat) :
    (monitor_containers decide toolMap question max_iterations).2.2 ≤
      max_iterations + 1 ∧
    ((∀ t, (decide t).tool_calls ≠ []) →
      (monitor_containers decide toolMap question max_iterations).2.2 =
        max_iterations + 1 ∧
      (monitor_containers decide toolMap question max_iterations).1 =
        (decide
          (monitor_containers decide toolMap question max_iterations).2.1).content.trim) := by
  constructor
  · exact toolLoop_calls_le decide toolMap max_iterations _
  · intro halways
    exact ⟨(toolLoop_calls_always decide toolMap halways max_iterations _).1,
      (toolLoop_calls_always decide toolMap halways max_iterations _).2⟩

/-- An engine that requests one tool call on every round, for the C2
witness (Scenario E of the spec). -/
def w_looping_engine : DecisionEngine := fun _ =>
  { content := "checking"
  , tool_calls := [{ name := "list_all_containers", args := "", id := "call-1" }] }

/-- An empty tool registry for the loop witnesses. -/
def w_empty_registry : ToolRegistry := fun _ => none

/-- C2 witness, Scenario E: `max_iterations = 2` against an engine that
always requests a tool call gives exactly 3 engine calls. -/
theorem tool_dispatch_loop_engine_call_bound_witness :
    (monitor_containers w_looping_engine w_empty_registry
      "Are all containers healthy?" 2).2.2 = 3 :=
  ((tool_dispatch_loop_engine_call_bound w_looping_engine w_empty_registry
      "Are all containers healthy?" 2).2
    (fun t => by simp [w_looping_engine])).1

/-- C3: every transcript `monitor_containers` produces is well formed: a
model message that issued N tool calls stands immediately before its N
tool-result messages, the results carry the calls' ids in issue order, and
no tool-result message occurs anywhere else (so none precedes its model
message or follows a later one). -/
theorem tool_dispatch_loop_transcript_ordered (decide : DecisionEngine)
    (toolMap : ToolRegistry) (question : String) (max_iterations : Nat) :
    WFT (fun c => dispatch_tool_call toolMap c)
      (monitor_containers decide toolMap question max_iterations).2.1 :=
  toolLoop_wft decide toolMap max_iterations _
    (WFT.human _ _ WFT.nil)

/-- C5: for every tool call, dispatch never raises past its boundary —
`dispatch_tool_call` is a total function into `ToolOut` — and it returns the
unknown-tool error result for an unregistered name, and wraps the message of
an exception a handler raises into an error result instead of propagating
the exception to the loop. -/
theorem dispatch_error_isolation (toolMap : ToolRegistry) (call : ToolCall) :
    (toolMap call.name = none →
      dispatch_tool_call toolMap call =
        ToolOut.failure ("Unknown tool: " ++ call.name)) ∧
    (∀ (handler : String → Except String String) (e : String),
      toolMap call.name = some handler →
      handler call.args = Except.error e →
      dispatch_tool_call toolMap call = ToolOut.failure e) := by
  constructor
  · intro h
    simp [dispatch_tool_call, h]
  · intro handler e hreg hraise
    simp [dispatch_tool_call, hreg, hraise]

/-- A registry with one handler that always raises, for the C5 witness. -/
def w_failing_registry : ToolRegistry := fun name =>
  if name == "get_container_logs" then
    some (fun _ => Except.error "docker daemon unreachable")
  else
    none

/-- C5 witness: dispatching an unregistered name and dispatching a raising
handler, concretely. -/
theorem dispatch_error_isolation_witness :
    dispatch_tool_call w_failing_registry
      { name := "restart_server", args := "", id := "call-9" } =
      ToolOut.failure ("Unknown tool: " ++ "restart_server") ∧
    dispatch_tool_call w_failing_registry
      { name := "get_container_logs", args := "", id := "call-10" } =
      ToolOut.failure "docker daemon unreachable" :=
  ⟨(dispatch_error_isolation w_failing_registry _).1 rfl,
   (dispatch_error_isolation w_failing_registry _).2 _
     "docker daemon unreachable" rfl rfl⟩

/-- C7: the escalation engine consults the static severity-to-transmit
policy (INFO: no, WARNING: yes, CRITICAL: yes, SUCCESS: no) before delivery,
and `send_email_alert` is invoked exactly once when the policy says yes and
never when it says no (the alert outcome is still built and returned, i.e.
recorded, in both cases). -/
theorem severity_transmit_policy :
    ALERT_LEVELS_send_email "INFO" = false ∧
    ALERT_LEVELS_send_email "WARNING" = true ∧
    ALERT_LEVELS_send_email "CRITICAL" = true ∧
    ALERT_LEVELS_send_email "SUCCESS" = false ∧
    ∀ (container_name : String) (r : HealResult) (now : String),
      (send_container_down_alert container_name r now).email_sends =
        (if ALERT_LEVELS_send_email
            (send_container_down_alert container_name r now).alert_level
         then 1 else 0) := by
  refine ⟨rfl, rfl, rfl, rfl, ?_⟩
  intro container_name r now
  by_cases h : r.success <;>
    simp [send_container_down_alert, ALERT_LEVELS_send_email, h]

/-- C8: when the container is not found, the healing routine makes zero
restart calls and returns the terminal not-found failure with recorded
attempt count 0. -/
theorem healing_not_found_zero_attempts (old container_name : String)
    (behavior : Nat → Except String String) (max_attempts : Nat) :
    restart_container_with_retry ⟨false, old, behavior⟩ container_name
      max_attempts =
      ({ success := false
       , container := container_name
       , error := some "Container not found"
       , attempts := some 0 }, 0) := rfl

/-- C10: every snapshot satisfies, by construction: the total count is the
running count plus the stopped count; every listed resource comes from a
state container carrying the 'environment' label; each such container's
record lands in exactly one of the running/stopped partitions (running iff
its status is "running"); and the all-healthy flag holds exactly when the
stopped count is zero. -/
theorem snapshot_partition_invariants (state : List Container) (now : String) :
    (check_container_health_status state now).total =
      (check_container_health_status state now).running +
        (check_container_health_status state now).stopped ∧
    ((check_container_health_status state now).all_healthy = true ↔
      (check_container_health_status state now).stopped = 0) ∧
    (∀ i ∈ (check_container_health_status state now).running_containers,
      i.status = "running" ∧
      ∃ c ∈ state, has_environment_label c = true ∧ i = container_info c) ∧
    (∀ i ∈ (check_container_health_status state now).stopped_containers,
      i.status ≠ "running" ∧
      ∃ c ∈ state, has_environment_label c = true ∧ i = container_info c) ∧
    (∀ i : ContainerInfo,
      ¬(i ∈ (check_container_health_status state now).running_containers ∧
        i ∈ (check_container_health_status state now).stopped_containers)) ∧
    (∀ c ∈ state, has_environment_label c = true →
      container_info c ∈
          (check_container_health_status state now).running_containers ∨
      container_info c ∈
          (check_container_health_status state now).stopped_containers) := by
  refine ⟨?_, ?_, ?_, ?_, ?_, ?_⟩
  · have h := length_filter_partition
      ((state.filter has_environment_label).map container_info)
      (fun i => i.status == "running")
    simp only [check_container_health_status]
    simp only [List.length_map] at h
    omega
  · simp [check_container_health_status]
  · intro i hi
    simp only [check_container_health_status, List.mem_filter,
      List.mem_map] at hi
    obtain ⟨⟨c, hc, rfl⟩, hs⟩ := hi
    exact ⟨by simpa using hs, c, hc.1, hc.2, rfl⟩
  · intro i hi
    simp only [check_container_health_status, List.mem_filter,
      List.mem_map] at hi
    obtain ⟨⟨c, hc, rfl⟩, hs⟩ := hi
    exact ⟨by simpa using hs, c, hc.1, hc.2, rfl⟩
  · rintro i ⟨h1, h2⟩
    simp only [check_container_health_status, List.mem_filter] at h1 h2
    have ht : (i.status == "running") = true := h1.2
    have hf : (!(i.status == "running")) = true := h2.2
    rw [ht] at hf
    simp at hf
  · intro c hc hl
    by_cases hs : (container_info c).status == "running"
    · left
      simp only [check_container_health_status, List.mem_filter, List.mem_map]
      exact ⟨⟨c, ⟨hc, hl⟩, rfl⟩, hs⟩
    · right
      simp only [check_container_health_status, List.mem_filter, List.mem_map]
      refine ⟨⟨c, ⟨hc, hl⟩, rfl⟩, ?_⟩
      simpa using hs

/-- A concrete two-container docker state for the C10 witness: one managed
running container, one managed stopped container. -/
def w_state : List Container :=
  [ { name := "prod-web-01", status := "running"
    , image_tags := ["nginx:latest"]
    , labels := [("environment", "prod"), ("role", "web")] }
  , { name := "prod-db-01", status := "exited"
    , image_tags := ["postgres:16"]
    , labels := [("environment", "prod"), ("role", "db")] } ]

/-- The stopped container of `w_state`. -/
def w_db : Container :=
  { name := "prod-db-01", status := "exited"
  , image_tags := ["postgres:16"]
  , labels := [("environment", "prod"), ("role", "db")] }

/-- C10 witness: on the concrete state, the count identity holds and the
stopped entry traces back to a labelled state container. -/
theorem snapshot_partition_invariants_witness :
    (check_container_health_status w_state "t0").total =
      (check_container_health_status w_state "t0").running +
        (check_container_health_status w_state "t0").stopped ∧
    ((container_info w_db).status ≠ "running" ∧
      ∃ c ∈ w_state, has_environment_label c = true ∧
        container_info w_db = container_info c) := by
  have h := snapshot_partition_invariants w_state "t0"
  exact ⟨h.1, h.2.2.2.1 (container_info w_db) (by decide)⟩

/-- C9: the health snapshot is a pure function of the adapter state; two
snapshots of the same state (only the timestamps differing) agree on the
stopped count, the stopped resources, the running count and the running
resources. -/
theorem snapshot_idempotent (state : List Container) (t1 t2 : String) :
    (check_container_health_status state t1).stopped =
      (check_container_health_status state t2).stopped ∧
    (check_container_health_status state t1).stopped_containers =
      (check_container_health_status state t2).stopped_containers ∧
    (check_container_health_status state t1).running =
      (check_container_health_status state t2).running ∧
    (check_container_health_status state t1).running_containers =
      (check_container_health_status state t2).running_containers :=
  ⟨rfl, rfl, rfl, rfl⟩

end ITOps
